import Mathlib

/-!
# ultrablue server: the attestation characteristic

Shallow embedding of `src/server/attestationChr.go`.

The file holds one function, `attestationChr`, whose body is

    chr := ble.NewCharacteristic(attestationChrUUID)
    return chr

with two TODO comments (HandleWrite, HandleRead) between the two statements.
The function returns a `*ble.Characteristic`, so the embedding passes an
explicit program state: the heap of allocated characteristics, and whatever
else the program holds.  A pointer is `nil` or the address of a heap cell.

Two things the function uses are declared elsewhere: the package-level
identifier `attestationChrUUID`, in another file of package `main`, taken as
a parameter, and the imported package `github.com/go-ble/ble`, modelled in
the namespace `ble` below.
-/

namespace ble

/-- Modelled from the spec: the identifier type of the imported package
`github.com/go-ble/ble`, whose code is not part of this repository.  The spec
speaks of "a fixed identifier constant"; the package declares
`type UUID []byte`, here a list of byte values. -/
abbrev UUID := List Nat

/-- Modelled from the spec: the property flags of a characteristic (the
package's `type Property int`), which say which of read, write, notify and
indicate the characteristic supports. -/
abbrev Property := Nat

/-- Modelled from the spec: the package's flag "supports read requests". -/
def CharRead : Property := 0x02

/-- Modelled from the spec: the package's flag "supports write without
response". -/
def CharWriteNR : Property := 0x04

/-- Modelled from the spec: the package's flag "supports write requests". -/
def CharWrite : Property := 0x08

/-- Modelled from the spec: the read path of a characteristic ("returning
signed attestation evidence on read").  The package's `ReadHandler` is an
interface with the one method `ServeRead`; a value maps the request bytes to
the bytes written to the response. -/
structure ReadHandler where
  ServeRead : List Nat → List Nat

/-- Modelled from the spec: the write path of a characteristic ("issuing a
nonce on write").  The package's `WriteHandler` is an interface with the one
method `ServeWrite`; a value maps the written bytes and the bytes kept so far
to the bytes kept afterwards. -/
structure WriteHandler where
  ServeWrite : List Nat → List Nat → List Nat

/-- Modelled from the spec: the package's `NotifyHandler`, an interface with
the one method `ServeNotify`; a value maps the request bytes to the bytes
notified. -/
structure NotifyHandler where
  ServeNotify : List Nat → List Nat

/-- Modelled from the spec: the characteristic record of the imported package
(`ble.Characteristic`), whose code is not part of this repository.  Every
field but `UUID` carries its Go zero value as default, so that the literal `{ UUID := u }` reads as the Go
composite literal `Characteristic{UUID: u}`: `0` for the integers, the empty
list for a nil slice of pointers, `none` for a nil pointer, a nil byte slice
and a nil interface value. -/
structure Characteristic where
  UUID : ble.UUID
  Property : ble.Property := 0
  Secure : ble.Property := 0
  Descriptors : List Nat := []
  CCCD : Option Nat := none
  Value : Option (List Nat) := none
  ReadHandler : Option ble.ReadHandler := none
  WriteHandler : Option ble.WriteHandler := none
  NotifyHandler : Option ble.NotifyHandler := none
  IndicateHandler : Option ble.NotifyHandler := none
  Handle : Nat := 0
  ValueHandle : Nat := 0
  EndHandle : Nat := 0

end ble

/-- A `*ble.Characteristic`: `none` is the nil pointer, `some a` the address
of the heap cell `a`. -/
abbrev Ptr := Option Nat

/-- The program state a call runs in: `globals` stands for everything the
program holds besides characteristics (package-level variables, other
objects), `heap` lists the characteristics allocated so far, a cell's
address being its position. -/
structure State (G : Type) where
  globals : G
  heap : List ble.Characteristic

/-- Pointer dereference: the cell a pointer designates, if any. -/
def State.deref {G : Type} (s : State G) : Ptr → Option ble.Characteristic
  | none => none
  | some a => s.heap[a]?

/-- The state with every cell from address `n` on set aside. -/
def State.upTo {G : Type} (s : State G) (n : Nat) : State G :=
  { s with heap := s.heap.take n }

/-- Modelled from the spec: the constructor `ble.NewCharacteristic` of the
imported package `github.com/go-ble/ble`, whose code is not part of this
repository.  The spec describes the call as one that "allocates a characteristic handle",
"identified by a fixed identifier constant", with "no side effects beyond
allocation" and "no read or write behavior"; the package's constructor is
`return &Characteristic{UUID: u}`.  The call allocates one fresh cell at the
end of the heap, holding the given identifier and zero values, and returns its
address. -/
def ble.NewCharacteristic {G : Type} (u : ble.UUID) (s : State G) : Ptr × State G :=
  (some s.heap.length, { s with heap := s.heap ++ [{ UUID := u }] })

/-- The function `attestationChr` of `src/server/attestationChr.go`.  The
package-level identifier `attestationChrUUID`, declared in another file of
package `main`, is a parameter.  The two TODO comments of the body are comments: no statement
stands between the constructor call and the return. -/
def attestationChr {G : Type} (attestationChrUUID : ble.UUID) (s : State G) :
    Ptr × State G :=
  let (chr, s) := ble.NewCharacteristic attestationChrUUID s
  (chr, s)

/-! ## Helper lemmas -/

/-- Reading a list at the length of a prefix gives the element that follows
the prefix. -/
theorem getElem?_length_append_cons {α : Type} (l : List α) (a : α) (r : List α) :
    (l ++ a :: r)[l.length]? = some a := by
  induction l with
  | nil => simp
  | cons x l ih => simpa using ih

/-- What a call evaluates to: the address past the old heap, and the old state
with one cell appended. -/
theorem attestationChr_eval {G : Type} (u : ble.UUID) (s : State G) :
    attestationChr u s =
      (some s.heap.length, { s with heap := s.heap ++ [{ UUID := u }] }) := rfl

/-- The cell the returned pointer designates in the state after the call. -/
theorem attestationChr_deref {G : Type} (u : ble.UUID) (s : State G) :
    (attestationChr u s).2.deref (attestationChr u s).1 = some { UUID := u } := by
  simp [attestationChr_eval, State.deref]

/-! ## The claims -/

/-- C1: for every call, `attestationChr` returns exactly what
`ble.NewCharacteristic` returns for the identifier `attestationChrUUID`
(pointer and state, nothing changed afterwards), and the characteristic the
returned pointer designates has that identifier as its UUID. -/
theorem attestationChr_uuid {G : Type} (attestationChrUUID : ble.UUID) (s : State G) :
    attestationChr attestationChrUUID s = ble.NewCharacteristic attestationChrUUID s ∧
    ∃ c, (attestationChr attestationChrUUID s).2.deref
        (attestationChr attestationChrUUID s).1 = some c ∧
      c.UUID = attestationChrUUID :=
  ⟨rfl, _, attestationChr_deref attestationChrUUID s, rfl⟩

/-- C2: the characteristic returned by `attestationChr` defines no read or
write behaviour: for every call, it has no read handler, no write handler and
no static value, and neither the read flag nor a write flag is set in its
properties. -/
theorem attestationChr_no_read_write {G : Type} (attestationChrUUID : ble.UUID)
    (s : State G) :
    ∃ c, (attestationChr attestationChrUUID s).2.deref
        (attestationChr attestationChrUUID s).1 = some c ∧
      c.ReadHandler = none ∧ c.WriteHandler = none ∧ c.Value = none ∧
      c.Property &&& ble.CharRead = 0 ∧
      c.Property &&& (ble.CharWrite ||| ble.CharWriteNR) = 0 :=
  ⟨_, attestationChr_deref attestationChrUUID s, rfl, rfl, rfl, Nat.zero_and _, Nat.zero_and _⟩

/-- C3 (the code departs from its doc comment): called on the empty heap with
a sixteen-byte identifier, `attestationChr` returns a characteristic that has
no read handler at all, so that no read of it is answered with the attestation
data. -/
theorem attestationChr_read_handler_missing :
    ¬ ∃ c h, (attestationChr (List.range 16) (⟨(), []⟩ : State Unit)).2.deref
        (attestationChr (List.range 16) (⟨(), []⟩ : State Unit)).1 = some c ∧
      c.ReadHandler = some h := by
  rintro ⟨c, h, hc, hh⟩
  rw [attestationChr_deref] at hc
  cases hc
  cases hh

/-- C4: `attestationChr` cannot fail: its result is a pointer and a state
(there is no error result), and for every call the pointer is not nil and
designates a cell of the heap after the call. -/
theorem attestationChr_total_nonnil {G : Type} (attestationChrUUID : ble.UUID)
    (s : State G) :
    (attestationChr attestationChrUUID s).1 ≠ none ∧
    ∃ a c, (attestationChr attestationChrUUID s).1 = some a ∧
      (attestationChr attestationChrUUID s).2.heap[a]? = some c := by
  refine ⟨by simp [attestationChr_eval], s.heap.length, { UUID := attestationChrUUID }, rfl, ?_⟩
  simp [attestationChr_eval]

/-- C5: `attestationChr` has no side effect beyond allocating the handle it
returns: for every starting state, the state after the call keeps the globals,
is the state before it once the newly allocated cell is set aside, and holds
exactly one cell more, the one returned; and the content of that cell is the
same whatever the starting state, so the call reads nothing but the constant
`attestationChrUUID`. -/
theorem attestationChr_frame {G : Type} (attestationChrUUID : ble.UUID) (s : State G) :
    (attestationChr attestationChrUUID s).2.globals = s.globals ∧
    (attestationChr attestationChrUUID s).2.upTo s.heap.length = s ∧
    (attestationChr attestationChrUUID s).2.heap.length = s.heap.length + 1 ∧
    (attestationChr attestationChrUUID s).1 = some s.heap.length ∧
    ∀ (G' : Type) (s' : State G'),
      (attestationChr attestationChrUUID s').2.deref
          (attestationChr attestationChrUUID s').1 =
        (attestationChr attestationChrUUID s).2.deref
          (attestationChr attestationChrUUID s).1 := by
  refine ⟨rfl, ?_, ?_, rfl, ?_⟩
  · simp [attestationChr_eval, State.upTo]
  · simp [attestationChr_eval]
  · intro G' s'
    rw [attestationChr_deref, attestationChr_deref]

/-- C6: `attestationChr` is deterministic: it takes no inputs, and any two
calls, from any two starting states, return handles with identical contents
(the UUID `attestationChrUUID`, no property flag, no handler, no descriptor);
so do two calls made one after the other, whose handles are two distinct cells
with identical contents in the final state. -/
theorem attestationChr_deterministic {G G' : Type} (attestationChrUUID : ble.UUID)
    (s : State G) (s' : State G') :
    ∃ c, (attestationChr attestationChrUUID s).2.deref
        (attestationChr attestationChrUUID s).1 = some c ∧
      (attestationChr attestationChrUUID s').2.deref
        (attestationChr attestationChrUUID s').1 = some c ∧
      (attestationChr attestationChrUUID
          (attestationChr attestationChrUUID s).2).2.deref
        (attestationChr attestationChrUUID s).1 = some c ∧
      (attestationChr attestationChrUUID
          (attestationChr attestationChrUUID s).2).2.deref
        (attestationChr attestationChrUUID (attestationChr attestationChrUUID s).2).1 =
          some c ∧
      (attestationChr attestationChrUUID s).1 ≠
        (attestationChr attestationChrUUID (attestationChr attestationChrUUID s).2).1 ∧
      c.UUID = attestationChrUUID ∧ c.Property = 0 ∧ c.Secure = 0 ∧
      c.ReadHandler = none ∧ c.WriteHandler = none ∧
      c.NotifyHandler = none ∧ c.IndicateHandler = none ∧
      c.Descriptors = [] ∧ c.CCCD = none ∧ c.Value = none := by
  refine ⟨{ UUID := attestationChrUUID }, attestationChr_deref _ _, attestationChr_deref _ _,
    ?_, attestationChr_deref _ _, ?_, rfl, rfl, rfl, rfl, rfl, rfl, rfl, rfl, rfl, rfl⟩
  · simp only [attestationChr_eval, State.deref, List.append_assoc, List.singleton_append]
    exact getElem?_length_append_cons _ _ _
  · simp [attestationChr_eval]
